import Mathlib

-- Verification development for the Jupyter analyzer (analyzers/Jupyter/jupyter.py).
-- The Python source is shallowly embedded below: the websocket reply-wait loop,
-- the per-cell execution loop, the JupyterHub server lifecycle helpers, the
-- configuration initialization, the output-path construction and the secret
-- sanitization step are each translated into executable Lean definitions, and
-- the behavioural claims about them are settled as theorems.

namespace Jupyter

-- ### Kernel channel messages (jupyter.py lines 307-339)
--
-- A decoded websocket message.  The source reads `msg['msg_type']` and
-- `msg['parent_header']['msg_id']`; the latter raises a `KeyError` when the
-- parent header carries no `msg_id`, which we model with an `Option`.
-- The `content` field stands for the remaining payload of the message
-- (used only to tell concrete messages apart).

structure Msg where
  msg_type : String
  parent_msg_id : Option String
  content : String
deriving DecidableEq, Repr

-- Model of `nbformat.v4.nbbase.output_from_msg` (external library): it builds
-- a notebook output from the message; we keep the whole message so that the
-- output is a function of the message content, as in the source.

structure Output where
  ofMsg : Msg
deriving DecidableEq, Repr

def output_from_msg (m : Msg) : Output := { ofMsg := m }

-- Outcome of the `while 1` reply-wait loop (lines 308-339) for one cell:
-- * `completed outs rest`: the loop hit `break` after setting
--   `cell["outputs"] = outs`; `rest` is the part of the channel not consumed.
--   (`execute_reply` sets `[]`; `stream`/`display_data` set one output.)
-- * `kernelError raw`: msg_type `error` matched, `self.error(...)` is called,
--   which is fatal for the whole process (cortexutils prints and exits).
-- * `keyErrorAbort`: a message whose `parent_header` lacks `msg_id` arrived;
--   `msg['parent_header']['msg_id']` raises `KeyError`, aborting the run.
-- A `none` result models the loop still blocking in `ws.read_message()` after
-- the supplied channel traffic is exhausted.

inductive WaitOutcome where
  | completed (outputs : List Output) (rest : List Msg)
  | kernelError (raw : Msg)
  | keyErrorAbort
deriving DecidableEq, Repr

def wait_for_reply (msg_id : String) : List Msg → Option WaitOutcome
  | [] => Option.none
  | m :: rest =>
    match m.parent_msg_id with
    | Option.none => some WaitOutcome.keyErrorAbort
    | some pid =>
      if pid = msg_id then
        if m.msg_type = "error" then some (WaitOutcome.kernelError m)
        else if m.msg_type = "execute_reply" then some (WaitOutcome.completed [] rest)
        else if m.msg_type = "stream" then
          some (WaitOutcome.completed [output_from_msg m] rest)
        else if m.msg_type = "display_data" then
          some (WaitOutcome.completed [output_from_msg m] rest)
        else wait_for_reply msg_id rest
      else wait_for_reply msg_id rest

-- ### Cells and the per-notebook execution loop (lines 277-340)

structure Cell where
  cell_type : String
  source : String
  outputs : List Output
deriving DecidableEq, Repr

-- Observable events of the remote execution: `send id code` is the
-- `ws.write_message` of an execute_request carrying header msg_id `id` and the
-- cell source; `terminal id` marks the `break` that ends the wait for that
-- request; `close` is `ws.close()`.

inductive Ev where
  | send (msg_id : String) (code : String)
  | terminal (msg_id : String)
  | close
deriving DecidableEq, Repr

inductive CellsOutcome where
  | ok (cells : List Cell) (rest : List Msg)
  | fatalKernel (raw : Msg)
  | fatalKey
  | blocked
deriving DecidableEq, Repr

-- The `for cell in nb_output['cells']` loop: only cells with
-- `cell_type == "code"` get an execute_request (with a fresh msg id drawn from
-- the supply `tok`, standing for `uuid4().hex`); other cells are skipped
-- untouched.  A fatal wait outcome aborts the loop (and the whole run).

def execute_cells (tok : Nat → String) (k : Nat) :
    List Cell → List Msg → List Ev × CellsOutcome
  | [], msgs => ([], CellsOutcome.ok [] msgs)
  | c :: cs, msgs =>
    if c.cell_type = "code" then
      match wait_for_reply (tok k) msgs with
      | Option.none => ([Ev.send (tok k) c.source], CellsOutcome.blocked)
      | some (WaitOutcome.kernelError m) =>
        ([Ev.send (tok k) c.source], CellsOutcome.fatalKernel m)
      | some WaitOutcome.keyErrorAbort =>
        ([Ev.send (tok k) c.source], CellsOutcome.fatalKey)
      | some (WaitOutcome.completed outs rest) =>
        let r := execute_cells tok (k + 1) cs rest
        (Ev.send (tok k) c.source :: Ev.terminal (tok k) :: r.1,
          match r.2 with
          | CellsOutcome.ok cs' rest' =>
            CellsOutcome.ok ({ c with outputs := outs } :: cs') rest'
          | o => o)
    else
      let r := execute_cells tok k cs msgs
      (r.1,
        match r.2 with
        | CellsOutcome.ok cs' rest' => CellsOutcome.ok (c :: cs') rest'
        | o => o)

-- Expected event trace of a successful pass over `cells`: each code cell in
-- source order contributes a send immediately followed by its terminal reply.

def expectedEvs (tok : Nat → String) (k : Nat) : List Cell → List Ev
  | [] => []
  | c :: cs =>
    if c.cell_type = "code" then
      Ev.send (tok k) c.source :: Ev.terminal (tok k) :: expectedEvs tok (k + 1) cs
    else expectedEvs tok k cs

def countCode (cells : List Cell) : Nat :=
  (cells.filter (fun c => c.cell_type = "code")).length

-- Outcome of `execute_notebook_remotely` over the whole list of notebooks
-- (the loading/parameterizing/writing of notebooks is delegated to external
-- libraries in the source; the cells below are the loaded notebooks).  The
-- single `ws.close()` of line 366 only runs when the notebook loop finishes
-- normally; fatal errors and a blocked read never reach it.

inductive RemoteOutcome where
  | ok (results : List (List Cell))
  | fatal
  | blockedRun
deriving DecidableEq, Repr

def execute_notebook_remotely (tok : Nat → String) (k : Nat) :
    List (List Cell) → List Msg → List Ev × RemoteOutcome
  | [], _ => ([Ev.close], RemoteOutcome.ok [])
  | nb :: nbs, msgs =>
    let r := execute_cells tok k nb msgs
    match r.2 with
    | CellsOutcome.ok nb' rest =>
      let r2 := execute_notebook_remotely tok (k + countCode nb) nbs rest
      (r.1 ++ r2.1,
        match r2.2 with
        | RemoteOutcome.ok results => RemoteOutcome.ok (nb' :: results)
        | o => o)
    | CellsOutcome.fatalKernel _ => (r.1, RemoteOutcome.fatal)
    | CellsOutcome.fatalKey => (r.1, RemoteOutcome.fatal)
    | CellsOutcome.blocked => (r.1, RemoteOutcome.blockedRun)

-- ### JupyterHub server lifecycle (jupyter.py lines 156-224)
--
-- A parsed progress-stream event (`event_stream` yields the JSON objects of
-- the `data:` lines).  `ready` models the truthiness of `event.get("ready")`;
-- `url` is the `url` field read on a ready event.

structure Event where
  ready : Bool
  url : String
deriving DecidableEq, Repr

-- The `for event in self.event_stream(...)` loop of `start_server`
-- (lines 190-196): first ready event wins, for-else raises when the stream
-- ends with none.

def wait_ready : List Event → Option String
  | [] => Option.none
  | e :: rest => if e.ready then some e.url else wait_ready rest

-- Python's `str.rstrip("/")`.

def rstrip_slash (s : String) : String :=
  String.mk ((s.data.reverse.dropWhile (fun c => c = '/')).reverse)

-- The `log_name` of lines 176 and 210: `f"{user}/{server_name}".rstrip("/")`.

def log_name (user server_name : String) : String :=
  rstrip_slash (user ++ "/" ++ server_name)

-- `start_server` (lines 170-200).  The HTTP prelude (fetching the user model,
-- POSTing a launch when the server is absent, and reading `progress_url`) is
-- transport: its net effect is the progress-event sequence `events`, which the
-- readiness loop consumes.  On success the source returns
-- `f"{hub_url}{server_url}"`; the for-else raises
-- `ValueError(f"{log_name} never started!")`.

def start_server (hub_url user server_name : String) (events : List Event) :
    Except String String :=
  match wait_ready events with
  | some u => Except.ok (hub_url ++ u)
  | Option.none => Except.error (log_name user server_name ++ " never started!")

-- `stop_server` (lines 202-224).  Each element of the input list is one poll
-- response: the user model's server map, as an association list from server
-- name to the truthiness of its `pending` field (a missing `servers` key is
-- the empty map, matching `user_model.get("servers", {})`).
-- `stopped polls sleeps` records the number of `requests.get` polls performed
-- and the list of `time.sleep` durations (always 1) between them;
-- `stateError` is the `ValueError` of line 222.  A `none` result means the
-- supplied responses were exhausted with the loop still polling (the source
-- loop retries unboundedly).

inductive StopOutcome where
  | stopped (polls : Nat) (sleeps : List Nat)
  | stateError (polls : Nat) (msg : String)
deriving DecidableEq, Repr

def stop_server (user server_name : String) :
    List (List (String × Bool)) → Option StopOutcome
  | [] => Option.none
  | servers :: rest =>
    match servers.lookup server_name with
    | Option.none => some (StopOutcome.stopped 1 [])
    | some pending =>
      if pending then
        match stop_server user server_name rest with
        | Option.none => Option.none
        | some (StopOutcome.stopped n ss) =>
          some (StopOutcome.stopped (n + 1) (1 :: ss))
        | some (StopOutcome.stateError n m) =>
          some (StopOutcome.stateError (n + 1) m)
      else
        some (StopOutcome.stateError 1
          ("Waiting for " ++ log_name user server_name ++ ", but no longer pending."))

-- ### Configuration initialization (jupyter.py lines 47-110, 381)

-- Result of `papermill_io.get_handler(hostname)` (external papermill):
-- either the `HttpHandler` or some other handler class.

inductive Handler where
  | http
  | nonHttp
deriving DecidableEq, Repr

-- Values stored in the configuration dict built by `initialize_path`.

inductive PyVal where
  | pyNone
  | str (s : String)
  | boolean (b : Bool)
  | handlerType (h : Handler)
  | headers (auth : String)
deriving DecidableEq, Repr

-- Python errors visible to the claims: subscripting `None`
-- (`TypeError: 'NoneType' object is not subscriptable`) and a missing dict
-- key (`KeyError`).

inductive PyErr where
  | typeErr
  | keyErr
deriving DecidableEq, Repr

def optStrVal : Option String → PyVal
  | Option.none => PyVal.pyNone
  | some s => PyVal.str s

-- Python dict assignment `d[key] = v` on a dict that already has the key.

def setKey (d : List (String × PyVal)) (key : String) (v : PyVal) :
    List (String × PyVal) :=
  d.map (fun p => if p.1 = key then (key, v) else p)

-- Python's `str.replace(pat, rep)`: replace all non-overlapping occurrences,
-- left to right.  Implemented with a fuel argument equal to the length of the
-- string so that the definition is structurally recursive; when `pat` is
-- non-empty each step consumes at least one character, so the fuel suffices.

def replaceFuel (pat rep : List Char) : Nat → List Char → List Char
  | 0, s => s
  | fuel + 1, s =>
    match s with
    | [] => []
    | c :: t =>
      if pat ≠ [] ∧ pat.isPrefixOf s then
        rep ++ replaceFuel pat rep fuel (s.drop pat.length)
      else c :: replaceFuel pat rep fuel t

def pyReplace (s pat rep : String) : String :=
  String.mk (replaceFuel pat.data rep.data s.data.length s.data)

-- The dict literal of lines 50-61.

def initDict (hostname : String) (handler : Handler) (token : Option String)
    (is_jupyterhub : Bool) : List (String × PyVal) :=
  [("hostname", PyVal.str hostname),
   ("handler_type", PyVal.handlerType handler),
   ("handler_http_service_api_token", optStrVal token),
   ("handler_http_is_jupyterhub", PyVal.boolean is_jupyterhub),
   ("handler_http_headers", PyVal.pyNone),
   ("handler_http_user", PyVal.pyNone),
   ("server", PyVal.pyNone),
   ("server_uri_http_api_contents", PyVal.pyNone),
   ("server_uri_http_api_kernels", PyVal.pyNone),
   ("server_uri_ws_api_kernels", PyVal.pyNone)]

-- `initialize_path` (lines 47-93).  `handler` is the result of
-- `papermill_io.get_handler(hostname)`; `user` is the value of the
-- `config.any_handler_http_user` parameter (`Option.none` when absent, in
-- which case `getParam` itself raises the fatal error of its message
-- argument); `events` feeds `start_server` on the JupyterHub branch.
-- `Except.error` models the fatal `self.error(...)` / raised exception;
-- `Except.ok Option.none` is the implicit `return None` when the handler is
-- not the `HttpHandler` (the function body ends without a `return`).

def initialize_path (handler : Handler) (hostname : String)
    (token : Option String) (is_jupyterhub : Bool) (user : Option String)
    (events : List Event) : Except String (Option (List (String × PyVal))) :=
  let d0 := initDict hostname handler token is_jupyterhub
  match handler with
  | Handler.nonHttp => Except.ok Option.none
  | Handler.http =>
    match token with
    | Option.none =>
      Except.error "[ERROR] You are using an HTTP handler but none service API token for input notebook was provided."
    | some t =>
      if t = "" then
        Except.error "[ERROR] You are using an HTTP handler but none service API token for input notebook was provided."
      else
        let d1 := setKey d0 "handler_http_headers" (PyVal.headers ("token " ++ t))
        match user with
        | Option.none =>
          Except.error "[HTTP Handler only] Service name parameter is missing."
        | some u =>
          if u = "" then
            Except.error "[ERROR] You are using an HTTP handler but none user was provided."
          else
            let d2 := setKey d1 "handler_http_user" (PyVal.str u)
            if is_jupyterhub then
              match start_server hostname u "cortex_job" events with
              | Except.error e => Except.error e
              | Except.ok server =>
                let d3 := setKey d2 "server" (PyVal.str server)
                let d4 := setKey d3 "server_uri_http_api_contents"
                  (PyVal.str (server ++ "api/contents"))
                let d5 := setKey d4 "server_uri_http_api_kernels"
                  (PyVal.str (server ++ "api/kernels"))
                let d6 := setKey d5 "server_uri_ws_api_kernels"
                  (PyVal.str (pyReplace (server ++ "api/kernels") "http://" "ws://"))
                Except.ok (some d6)
            else
              let d3 := setKey d2 "server_uri_http_api_contents"
                (PyVal.str (hostname ++ "api/contents"))
              let d4 := setKey d3 "server_uri_http_api_kernels"
                (PyVal.str (hostname ++ "api/kernels"))
              let d5 := setKey d4 "server_uri_ws_api_kernels"
                (PyVal.str (pyReplace (hostname ++ "api/kernels") "http://" "ws://"))
              Except.ok (some d5)

-- Python subscript `d[name]` where `d` is the stored configuration
-- (`None` or a dict): `None[name]` raises a `TypeError`, a missing key a
-- `KeyError`.

def dict_subscript (d : Option (List (String × PyVal))) (name : String) :
    Except PyErr PyVal :=
  match d with
  | Option.none => Except.error PyErr.typeErr
  | some l =>
    match l.lookup name with
    | Option.none => Except.error PyErr.keyErr
    | some v => Except.ok v

-- `get_conf` (lines 95-110): selects the input or output configuration and
-- subscripts it; any other `type` returns Python `None`.

def get_conf (input_configuration output_configuration : Option (List (String × PyVal)))
    (ty name : String) : Except PyErr PyVal :=
  if ty = "input" then dict_subscript input_configuration name
  else if ty = "output" then dict_subscript output_configuration name
  else Except.ok PyVal.pyNone

-- The execution-mode check of line 381:
-- `self.input_execute_remotely is True and self.get_conf("input","handler_type") is HttpHandler`.
-- Python `and` short-circuits, so `get_conf` is only evaluated when the
-- remote flag is identically `True`.

def run_mode_check (remotely : PyVal)
    (input_configuration output_configuration : Option (List (String × PyVal))) :
    Except PyErr Bool :=
  if remotely = PyVal.boolean true then
    (get_conf input_configuration output_configuration "input" "handler_type").map
      (fun v => v = PyVal.handlerType Handler.http)
  else Except.ok false

-- ### Output path construction (jupyter.py lines 346-351 and 397-402)

-- Python slicing `path[1:]`.

def drop_first (p : String) : String := String.mk (p.data.drop 1)

-- Modelled from the spec: "the notebook's path with its leading path
-- separator stripped" (the spec's description of `path[1:]`), kept as a
-- separate definition so that claim C5 can be compared against it.

def spec_strip_leading_sep (p : String) : String :=
  if p.data.head? = some '/' then drop_first p else p

-- The output-destination fields read on lines 346-351 (and identically on
-- lines 397-402): the output configuration's contents-API base, hostname and
-- service API token, plus the configured output folder.

structure OutputEndpoint where
  contents_uri : String
  hostname : String
  token : String
  folder : String
deriving DecidableEq, Repr

-- Lines 346-351: `isHttp` is the `get_conf("output","handler_type") is
-- HttpHandler` test; the first component is `output_path` (where the notebook
-- is written), the second `output_path_direct` (the browsable link reported to
-- the user).  `in_user` is `get_conf("input","handler_http_user")`, `date` is
-- `str(datetime.date.today())` and `data` the triggering observable value.

def build_output_paths (outC : OutputEndpoint) (in_user date data path : String)
    (isHttp : Bool) : String × String :=
  if isHttp then
    (outC.contents_uri ++ outC.folder ++ date ++ "-" ++ data ++ "-" ++
       drop_first path ++ "?token=" ++ outC.token,
     outC.hostname ++ "/user/" ++ in_user ++ "/tree" ++ outC.folder ++ date ++
       "-" ++ data ++ "-" ++ drop_first path)
  else
    (outC.hostname ++ outC.folder ++ date ++ "-" ++ data ++ "-" ++ drop_first path,
     outC.hostname ++ outC.folder ++ date ++ "-" ++ data ++ "-" ++ drop_first path)

-- ### Local-path input URL and secret sanitization (lines 392, 426-428)

-- Line 392: the papermill input URL on the HTTP-handler branch.

def build_input_notebook_http (contents_uri token path : String) : String :=
  contents_uri ++ "/" ++ path ++ "?token=" ++ token

-- Lines 427-428: `s.replace("?token=" + output_token, "")` applied to the
-- recorded papermill `input_path` / `output_path` metadata.

def sanitize_papermill_path (output_token : String) (s : String) : String :=
  pyReplace s ("?token=" ++ output_token) ""

-- ## Theorems

-- Messages at the head of the channel that carry a parent msg id different
-- from the pending token are consumed without any effect on the wait result.

theorem wait_for_reply_drop_foreign (token : String) :
    ∀ (pre l : List Msg),
    (∀ x ∈ pre, ∃ p, x.parent_msg_id = some p ∧ p ≠ token) →
    wait_for_reply token (pre ++ l) = wait_for_reply token l := by
  intro pre
  induction pre with
  | nil => intro l _; rfl
  | cons m pre ih =>
    intro l h
    obtain ⟨p, hp, hne⟩ := h m (List.mem_cons_self m pre)
    have hrec : ∀ x ∈ pre, ∃ q, x.parent_msg_id = some q ∧ q ≠ token := by
      intro x hx; exact h x (List.mem_cons_of_mem m hx)
    rw [List.cons_append]
    simp only [wait_for_reply, hp, hne, if_false]
    exact ih l hrec

/-- C1 (amended): during the reply wait, a channel message bearing a
`parent_header.msg_id` different from the pending token is dropped silently:
the wait result over the remaining traffic is unchanged.  However a message
whose correlating id is missing is not dropped: the subscript
`msg['parent_header']['msg_id']` raises a `KeyError` that aborts the wait.
Among id-bearing messages only one whose id equals the token can terminate the
wait. -/
theorem wait_loop_foreign_messages (token : String) (m : Msg) (rest : List Msg) :
    (∀ p, m.parent_msg_id = some p → p ≠ token →
      wait_for_reply token (m :: rest) = wait_for_reply token rest)
    ∧ (m.parent_msg_id = Option.none →
      wait_for_reply token (m :: rest) = some WaitOutcome.keyErrorAbort) := by
  constructor
  · intro p hp hne
    exact wait_for_reply_drop_foreign token [m] rest
      (by intro x hx; simp only [List.mem_singleton] at hx; subst hx; exact ⟨p, hp, hne⟩)
  · intro h
    simp only [wait_for_reply, h]

theorem wait_loop_foreign_messages_witness :
    wait_for_reply "t" [{ msg_type := "status", parent_msg_id := some "u", content := "" }]
      = wait_for_reply "t" []
    ∧ wait_for_reply "t" [{ msg_type := "status", parent_msg_id := Option.none, content := "" }]
      = some WaitOutcome.keyErrorAbort :=
  ⟨(wait_loop_foreign_messages "t" _ []).1 "u" rfl (by decide),
   (wait_loop_foreign_messages "t" _ []).2 rfl⟩

/-- C1 counterexample: a message whose `parent_header` has no `msg_id` is not
dropped silently — it terminates the wait with a `KeyError` even though a
genuine reply for the pending token follows, so injecting it changes the
observed cell result (which would have been one stream output). -/
theorem wait_loop_missing_id_not_dropped :
    wait_for_reply "t"
        [{ msg_type := "status", parent_msg_id := Option.none, content := "" },
         { msg_type := "stream", parent_msg_id := some "t", content := "X" }]
      = some WaitOutcome.keyErrorAbort
    ∧ wait_for_reply "t"
        [{ msg_type := "stream", parent_msg_id := some "t", content := "X" }]
      = some (WaitOutcome.completed
          [output_from_msg { msg_type := "stream", parent_msg_id := some "t", content := "X" }] [])
    ∧ wait_for_reply "t"
        [{ msg_type := "status", parent_msg_id := Option.none, content := "" },
         { msg_type := "stream", parent_msg_id := some "t", content := "X" }]
      ≠ wait_for_reply "t"
        [{ msg_type := "stream", parent_msg_id := some "t", content := "X" }] := by
  decide

/-- C2: once the foreign-id prefix of the traffic is dropped, the first
message matching the pending token decides the cell: `stream` or
`display_data` ends the wait immediately with exactly one output built from
that message; `execute_reply` ends it with zero outputs; `error` ends the run
with the kernel-error signal carrying the raw message (and no outputs); any
other matching type is ignored and the loop continues on the remaining
traffic. -/
theorem wait_loop_dispatch (token : String) (pre : List Msg) (m : Msg)
    (rest : List Msg)
    (hpre : ∀ x ∈ pre, ∃ p, x.parent_msg_id = some p ∧ p ≠ token)
    (hm : m.parent_msg_id = some token) :
    ((m.msg_type = "stream" ∨ m.msg_type = "display_data") →
      wait_for_reply token (pre ++ m :: rest)
        = some (WaitOutcome.completed [output_from_msg m] rest))
    ∧ (m.msg_type = "execute_reply" →
      wait_for_reply token (pre ++ m :: rest) = some (WaitOutcome.completed [] rest))
    ∧ (m.msg_type = "error" →
      wait_for_reply token (pre ++ m :: rest) = some (WaitOutcome.kernelError m))
    ∧ (m.msg_type ≠ "error" → m.msg_type ≠ "execute_reply" → m.msg_type ≠ "stream" →
       m.msg_type ≠ "display_data" →
      wait_for_reply token (pre ++ m :: rest) = wait_for_reply token rest) := by
  rw [wait_for_reply_drop_foreign token pre (m :: rest) hpre]
  refine ⟨?_, ?_, ?_, ?_⟩
  · rintro (h | h) <;> simp [wait_for_reply, hm, h]
  · intro h; simp [wait_for_reply, hm, h]
  · intro h; simp [wait_for_reply, hm, h]
  · intro h1 h2 h3 h4; simp [wait_for_reply, hm, h1, h2, h3, h4]

theorem wait_loop_dispatch_witness :
    wait_for_reply "t"
        [{ msg_type := "status", parent_msg_id := some "u", content := "" },
         { msg_type := "stream", parent_msg_id := some "t", content := "X" }]
      = some (WaitOutcome.completed
          [output_from_msg { msg_type := "stream", parent_msg_id := some "t", content := "X" }] []) :=
  (wait_loop_dispatch "t"
      [{ msg_type := "status", parent_msg_id := some "u", content := "" }]
      { msg_type := "stream", parent_msg_id := some "t", content := "X" } []
      (by intro x hx; simp only [List.mem_singleton] at hx; subst hx
          exact ⟨"u", rfl, by decide⟩)
      rfl).1 (Or.inl rfl)

theorem wait_ready_first (u : String) :
    ∀ (pre : List Event) (e : Event) (rest : List Event),
    (∀ x ∈ pre, x.ready = false) → e.ready = true → e.url = u →
    wait_ready (pre ++ e :: rest) = some u := by
  intro pre
  induction pre with
  | nil =>
    intro e rest _ he hu
    simp [wait_ready, he, hu]
  | cons x pre ih =>
    intro e rest h he hu
    have hx : x.ready = false := h x (List.mem_cons_self x pre)
    rw [List.cons_append]
    simp only [wait_ready, hx, Bool.false_eq_true, if_false]
    exact ih e rest (fun y hy => h y (List.mem_cons_of_mem x hy)) he hu

theorem wait_ready_none_iff :
    ∀ events : List Event,
    wait_ready events = Option.none ↔ ∀ x ∈ events, x.ready = false := by
  intro events
  induction events with
  | nil => simp [wait_ready]
  | cons e rest ih =>
    by_cases he : e.ready = true
    · simp [wait_ready, he]
    · simp only [Bool.not_eq_true] at he
      simp [wait_ready, he, ih]

/-- C3: `start_server` resolves the server URL from the `url` field of the
first progress event whose `ready` field is truthy (the returned value is the
hub URL concatenated with that field, and no event after the first ready one
influences it — the trailing events are arbitrary); and it raises the
"never started" `ValueError` naming `user/server_name` exactly when the event
stream ends without any ready event. -/
theorem start_server_ready_spec (hub user name : String) :
    (∀ (pre : List Event) (e : Event) (rest : List Event),
      (∀ x ∈ pre, x.ready = false) → e.ready = true →
      start_server hub user name (pre ++ e :: rest) = Except.ok (hub ++ e.url))
    ∧ (∀ events : List Event,
      (∃ msg, start_server hub user name events = Except.error msg)
        ↔ ∀ x ∈ events, x.ready = false)
    ∧ (∀ events : List Event, (∀ x ∈ events, x.ready = false) →
      start_server hub user name events
        = Except.error (log_name user name ++ " never started!")) := by
  refine ⟨?_, ?_, ?_⟩
  · intro pre e rest hpre he
    unfold start_server
    rw [wait_ready_first e.url pre e rest hpre he rfl]
  · intro events
    constructor
    · rintro ⟨msg, hmsg⟩
      rw [← wait_ready_none_iff]
      unfold start_server at hmsg
      cases hw : wait_ready events with
      | none => rfl
      | some u => rw [hw] at hmsg; exact absurd hmsg (by simp)
    · intro h
      refine ⟨log_name user name ++ " never started!", ?_⟩
      unfold start_server
      rw [(wait_ready_none_iff events).mpr h]
  · intro events h
    unfold start_server
    rw [(wait_ready_none_iff events).mpr h]

theorem start_server_ready_spec_witness :
    start_server "http://hub" "alice" "cortex_job"
        [{ ready := false, url := "ignored" }, { ready := true, url := "/user/alice/" },
         { ready := true, url := "/late/" }]
      = Except.ok ("http://hub" ++ "/user/alice/")
    ∧ start_server "http://hub" "alice" "cortex_job"
        [{ ready := false, url := "a" }, { ready := false, url := "b" }]
      = Except.error (log_name "alice" "cortex_job" ++ " never started!") :=
  ⟨(start_server_ready_spec "http://hub" "alice" "cortex_job").1
      [{ ready := false, url := "ignored" }] { ready := true, url := "/user/alice/" }
      [{ ready := true, url := "/late/" }]
      (by intro x hx; simp only [List.mem_singleton] at hx; subst hx; rfl) rfl,
   (start_server_ready_spec "http://hub" "alice" "cortex_job").2.2
      [{ ready := false, url := "a" }, { ready := false, url := "b" }]
      (by intro x hx; simp only [List.mem_cons, List.mem_singleton] at hx
          rcases hx with h | h | h <;> first | (subst h; rfl) | cases h)⟩

/-- C6: `stop_server` polls the user's server map with unbounded retries
(every response that still lists the server as pending leads to another poll,
with a fixed `time.sleep(1)` between consecutive polls), returns normally on
the first response whose map omits the server name — so for
`[present-pending, present-pending, absent]` it performs exactly 3 polls with
two 1-second sleeps — and raises the "no longer pending" `ValueError` on the
first response showing the server present but not pending. -/
theorem stop_server_poll_spec (user name : String) :
    (∀ rs : List (List (String × Bool)),
      (∀ r ∈ rs, r.lookup name = some true) →
      stop_server user name rs = Option.none)
    ∧ (∀ (pre : List (List (String × Bool))) (r : List (String × Bool))
        (rest : List (List (String × Bool))),
      (∀ x ∈ pre, x.lookup name = some true) → r.lookup name = Option.none →
      stop_server user name (pre ++ r :: rest)
        = some (StopOutcome.stopped (pre.length + 1) (List.replicate pre.length 1)))
    ∧ (∀ (pre : List (List (String × Bool))) (r : List (String × Bool))
        (rest : List (List (String × Bool))),
      (∀ x ∈ pre, x.lookup name = some true) → r.lookup name = some false →
      stop_server user name (pre ++ r :: rest)
        = some (StopOutcome.stateError (pre.length + 1)
            ("Waiting for " ++ log_name user name ++ ", but no longer pending."))) := by
  refine ⟨?_, ?_, ?_⟩
  · intro rs h
    induction rs with
    | nil => rfl
    | cons r rest ih =>
      have hr : r.lookup name = some true := h r (List.mem_cons_self r rest)
      simp only [stop_server, hr, if_true]
      rw [ih (fun x hx => h x (List.mem_cons_of_mem r hx))]
  · intro pre r rest h hr
    induction pre with
    | nil => simp [stop_server, hr]
    | cons x pre ih =>
      have hx : x.lookup name = some true := h x (List.mem_cons_self x pre)
      rw [List.cons_append]
      simp only [stop_server, hx, if_true]
      rw [ih (fun y hy => h y (List.mem_cons_of_mem x hy))]
      simp [List.replicate_succ]
  · intro pre r rest h hr
    induction pre with
    | nil => simp [stop_server, hr]
    | cons x pre ih =>
      have hx : x.lookup name = some true := h x (List.mem_cons_self x pre)
      rw [List.cons_append]
      simp only [stop_server, hx, if_true]
      rw [ih (fun y hy => h y (List.mem_cons_of_mem x hy))]
      simp [Nat.add_comm, Nat.add_left_comm]

theorem stop_server_poll_spec_witness :
    stop_server "alice" "cortex_job"
        [[("cortex_job", true)], [("cortex_job", true)], []]
      = some (StopOutcome.stopped 3 [1, 1]) := by
  have h := (stop_server_poll_spec "alice" "cortex_job").2.1
      [[("cortex_job", true)], [("cortex_job", true)]] [] []
      (by intro x hx; simp only [List.mem_cons, List.mem_singleton] at hx
          rcases hx with h | h | h <;> first | (subst h; rfl) | cases h)
      rfl
  simpa using h

/-- C4: over any notebook, the emitted event trace is always a prefix of the
canonical trace that sends one execute_request per code cell in source order,
each send immediately followed by that cell's terminal reply (so the next cell
is never sent before the previous terminal reply is observed and non-code
cells are never submitted); when the pass completes normally the trace equals
that canonical trace — every code cell submitted exactly once — and every
non-code cell is passed through unmodified. -/
theorem execute_cells_submission_order (tok : Nat → String) :
    ∀ (cells : List Cell) (k : Nat) (msgs : List Msg),
    (execute_cells tok k cells msgs).1 <+: expectedEvs tok k cells
    ∧ (∀ cells' rest, (execute_cells tok k cells msgs).2 = CellsOutcome.ok cells' rest →
        (execute_cells tok k cells msgs).1 = expectedEvs tok k cells
        ∧ List.Forall₂ (fun a b => a.cell_type ≠ "code" → b = a) cells cells') := by
  intro cells
  induction cells with
  | nil =>
    intro k msgs
    constructor
    · exact List.nil_prefix
    · intro cells' rest h
      simp only [execute_cells, CellsOutcome.ok.injEq] at h
      refine ⟨rfl, ?_⟩
      rw [← h.1]
      exact List.Forall₂.nil
  | cons c cs ih =>
    intro k msgs
    by_cases hc : c.cell_type = "code"
    · cases hw : wait_for_reply (tok k) msgs with
      | none =>
        constructor
        · simp only [execute_cells, hc, if_true, hw, expectedEvs]
          exact ⟨Ev.terminal (tok k) :: expectedEvs tok (k + 1) cs, rfl⟩
        · intro cells' rest h
          simp only [execute_cells, hc, if_true, hw] at h
          cases h
      | some wo =>
        cases wo with
        | kernelError m =>
          constructor
          · simp only [execute_cells, hc, if_true, hw, expectedEvs]
            exact ⟨Ev.terminal (tok k) :: expectedEvs tok (k + 1) cs, rfl⟩
          · intro cells' rest h
            simp only [execute_cells, hc, if_true, hw] at h
            cases h
        | keyErrorAbort =>
          constructor
          · simp only [execute_cells, hc, if_true, hw, expectedEvs]
            exact ⟨Ev.terminal (tok k) :: expectedEvs tok (k + 1) cs, rfl⟩
          · intro cells' rest h
            simp only [execute_cells, hc, if_true, hw] at h
            cases h
        | completed outs rest' =>
          obtain ⟨ih1, ih2⟩ := ih (k + 1) rest'
          constructor
          · simp only [execute_cells, hc, if_true, hw, expectedEvs]
            exact (List.prefix_cons_inj _).mpr ((List.prefix_cons_inj _).mpr ih1)
          · intro cells' rest h
            simp only [execute_cells, hc, if_true, hw] at h ⊢
            cases hr : (execute_cells tok (k + 1) cs rest').2 with
            | ok cs' r =>
              rw [hr] at h
              simp only [CellsOutcome.ok.injEq] at h
              obtain ⟨hcells, hrest⟩ := h
              obtain ⟨htrace, hf2⟩ := ih2 cs' r hr
              refine ⟨?_, ?_⟩
              · simp only [expectedEvs, hc, if_true, htrace]
              · rw [← hcells]
                exact List.Forall₂.cons (fun hne => absurd hc hne) hf2
            | fatalKernel m => rw [hr] at h; cases h
            | fatalKey => rw [hr] at h; cases h
            | blocked => rw [hr] at h; cases h
    · obtain ⟨ih1, ih2⟩ := ih k msgs
      constructor
      · simp only [execute_cells, hc, if_false, expectedEvs]
        exact ih1
      · intro cells' rest h
        simp only [execute_cells, hc, if_false] at h ⊢
        cases hr : (execute_cells tok k cs msgs).2 with
        | ok cs' r =>
          rw [hr] at h
          simp only [CellsOutcome.ok.injEq] at h
          obtain ⟨hcells, hrest⟩ := h
          obtain ⟨htrace, hf2⟩ := ih2 cs' r hr
          refine ⟨?_, ?_⟩
          · simp only [expectedEvs, hc, if_false, htrace]
          · rw [← hcells]
            exact List.Forall₂.cons (fun _ => rfl) hf2
        | fatalKernel m => rw [hr] at h; cases h
        | fatalKey => rw [hr] at h; cases h
        | blocked => rw [hr] at h; cases h


theorem execute_cells_submission_order_witness :
    (execute_cells (fun _ => "t") 0
        [{ cell_type := "code", source := "x", outputs := [] },
         { cell_type := "markdown", source := "note", outputs := [] }]
        [{ msg_type := "execute_reply", parent_msg_id := some "t", content := "" }]).1
      = expectedEvs (fun _ => "t") 0
          [{ cell_type := "code", source := "x", outputs := [] },
           { cell_type := "markdown", source := "note", outputs := [] }]
    ∧ List.Forall₂ (fun a b => a.cell_type ≠ "code" → b = a)
        ([{ cell_type := "code", source := "x", outputs := [] },
          { cell_type := "markdown", source := "note", outputs := [] }] : List Cell)
        ([{ cell_type := "code", source := "x", outputs := [] },
          { cell_type := "markdown", source := "note", outputs := [] }] : List Cell) :=
  (execute_cells_submission_order (fun _ => "t")
      [{ cell_type := "code", source := "x", outputs := [] },
       { cell_type := "markdown", source := "note", outputs := [] }] 0
      [{ msg_type := "execute_reply", parent_msg_id := some "t", content := "" }]).2
    [{ cell_type := "code", source := "x", outputs := [] },
     { cell_type := "markdown", source := "note", outputs := [] }] [] rfl

theorem execute_cells_no_close (tok : Nat → String) :
    ∀ (cells : List Cell) (k : Nat) (msgs : List Msg),
    Ev.close ∉ (execute_cells tok k cells msgs).1 := by
  intro cells
  induction cells with
  | nil => intro k msgs; simp [execute_cells]
  | cons c cs ih =>
    intro k msgs
    by_cases hc : c.cell_type = "code"
    · cases hw : wait_for_reply (tok k) msgs with
      | none => simp [execute_cells, hc, hw]
      | some wo =>
        cases wo with
        | kernelError m => simp [execute_cells, hc, hw]
        | keyErrorAbort => simp [execute_cells, hc, hw]
        | completed outs rest' =>
          simp only [execute_cells, hc, if_true, hw, List.mem_cons, not_or]
          exact ⟨by simp, by simp, ih (k + 1) rest'⟩
    · simp only [execute_cells, hc, if_false]
      exact ih k msgs

/-- C7 (amended): the kernel message channel is closed exactly once on a
remote run that completes normally; an exit caused by a kernel error message
or by a message missing its correlating id (a raised exception), or a wait
that blocks forever, never reaches the `ws.close()` call — the source has no
`try`/`finally` around the channel. -/
theorem remote_run_close_once_on_success (tok : Nat → String) :
    ∀ (nbs : List (List Cell)) (k : Nat) (msgs : List Msg) (evs : List Ev)
      (results : List (List Cell)),
    execute_notebook_remotely tok k nbs msgs = (evs, RemoteOutcome.ok results) →
    evs.count Ev.close = 1 := by
  intro nbs
  induction nbs with
  | nil =>
    intro k msgs evs results h
    simp only [execute_notebook_remotely, Prod.mk.injEq] at h
    rw [← h.1]
    rfl
  | cons nb nbs ih =>
    intro k msgs evs results h
    cases hr : (execute_cells tok k nb msgs).2 with
    | ok nb' rest =>
      simp only [execute_notebook_remotely, hr] at h
      cases hr2 : (execute_notebook_remotely tok (k + countCode nb) nbs rest).2 with
      | ok results2 =>
        simp only [hr2, Prod.mk.injEq] at h
        have hpair : execute_notebook_remotely tok (k + countCode nb) nbs rest
            = ((execute_notebook_remotely tok (k + countCode nb) nbs rest).1,
               RemoteOutcome.ok results2) := by
          rw [← hr2]
        rw [← h.1, List.count_append]
        rw [List.count_eq_zero.mpr (execute_cells_no_close tok nb k msgs)]
        rw [ih (k + countCode nb) rest
          (execute_notebook_remotely tok (k + countCode nb) nbs rest).1 results2 hpair]
      | fatal => simp only [hr2, Prod.mk.injEq] at h; cases h.2
      | blockedRun => simp only [hr2, Prod.mk.injEq] at h; cases h.2
    | fatalKernel m => simp only [execute_notebook_remotely, hr, Prod.mk.injEq] at h; cases h.2
    | fatalKey => simp only [execute_notebook_remotely, hr, Prod.mk.injEq] at h; cases h.2
    | blocked => simp only [execute_notebook_remotely, hr, Prod.mk.injEq] at h; cases h.2

theorem remote_run_close_once_witness :
    ([Ev.send "t" "x", Ev.terminal "t", Ev.close] : List Ev).count Ev.close = 1 :=
  remote_run_close_once_on_success (fun _ => "t")
    [[{ cell_type := "code", source := "x", outputs := [] }]] 0
    [{ msg_type := "execute_reply", parent_msg_id := some "t", content := "" }]
    [Ev.send "t" "x", Ev.terminal "t", Ev.close]
    [[{ cell_type := "code", source := "x", outputs := [] }]] rfl

/-- C7 counterexample: a remote run over one notebook with one code cell whose
reply is a kernel `error` message exits fatally with zero `close` events, so
the channel is not closed on every exit path. -/
theorem remote_run_error_exit_never_closes :
    (execute_notebook_remotely (fun _ => "t") 0
        [[{ cell_type := "code", source := "x", outputs := [] }]]
        [{ msg_type := "error", parent_msg_id := some "t", content := "boom" }]).2
      = RemoteOutcome.fatal
    ∧ ((execute_notebook_remotely (fun _ => "t") 0
        [[{ cell_type := "code", source := "x", outputs := [] }]]
        [{ msg_type := "error", parent_msg_id := some "t", content := "boom" }]).1).count Ev.close
      = 0 := by
  decide


/-- C8: constructing the endpoint configuration of a multi-user hub
(`HttpHandler` destination with `handler_http_is_jupyterhub` true — the only
way a configuration with the hub flag arises) fails with a fatal configuration
error whenever the service API token or the user is empty or absent; and no
configuration dict with the hub flag is ever successfully produced from an
empty or absent token or user. -/
theorem initialize_path_hub_credentials :
    (∀ (hostname : String) (token : Option String) (user : Option String)
        (events : List Event),
      (token = Option.none ∨ token = some "" ∨ user = Option.none ∨ user = some "") →
      ∃ e, initialize_path Handler.http hostname token true user events = Except.error e)
    ∧ (∀ (h : Handler) (hostname : String) (token user : Option String)
        (events : List Event) (d : List (String × PyVal)),
      initialize_path h hostname token true user events = Except.ok (some d) →
      (∃ t, token = some t ∧ t ≠ "") ∧ (∃ u, user = some u ∧ u ≠ "")) := by
  constructor
  · intro hostname token user events hcase
    rcases hcase with h | h | h | h
    · subst h
      exact ⟨_, rfl⟩
    · subst h
      exact ⟨_, rfl⟩
    · subst h
      cases token with
      | none => exact ⟨_, rfl⟩
      | some t =>
        by_cases ht : t = ""
        · exact ⟨"[ERROR] You are using an HTTP handler but none service API token for input notebook was provided.",
            by simp [initialize_path, ht]⟩
        · exact ⟨"[HTTP Handler only] Service name parameter is missing.",
            by simp [initialize_path, ht]⟩
    · subst h
      cases token with
      | none => exact ⟨_, rfl⟩
      | some t =>
        by_cases ht : t = ""
        · exact ⟨"[ERROR] You are using an HTTP handler but none service API token for input notebook was provided.",
            by simp [initialize_path, ht]⟩
        · exact ⟨"[ERROR] You are using an HTTP handler but none user was provided.",
            by simp [initialize_path, ht]⟩
  · intro h hostname token user events d heq
    cases h with
    | nonHttp => cases heq
    | http =>
      cases token with
      | none => cases heq
      | some t =>
        by_cases ht : t = ""
        · simp [initialize_path, ht] at heq
        · cases user with
          | none => simp [initialize_path, ht] at heq
          | some u =>
            by_cases hu : u = ""
            · simp [initialize_path, ht, hu] at heq
            · exact ⟨⟨t, rfl, ht⟩, ⟨u, rfl, hu⟩⟩

theorem initialize_path_hub_credentials_witness :
    ∃ e, initialize_path Handler.http "http://hub/" (some "") true (some "alice") []
      = Except.error e :=
  initialize_path_hub_credentials.1 "http://hub/" (some "") (some "alice") []
    (Or.inr (Or.inl rfl))

/-- C9 (amended): for a hostname whose resolved handler is not the
`HttpHandler`, `initialize_path` returns `None`, so every subsequent
`get_conf` lookup on that endpoint raises a `TypeError` instead of returning a
field value; the run's execution-mode check therefore fails whenever the
remote-execution flag is identically `True`, but when the flag is anything
else Python's short-circuiting `and` evaluates the check to `False` without
consulting the configuration. -/
theorem non_http_config_lookups_fail :
    (∀ (hostname : String) (token : Option String) (hub : Bool)
        (user : Option String) (events : List Event),
      initialize_path Handler.nonHttp hostname token hub user events
        = Except.ok Option.none)
    ∧ (∀ (outC : Option (List (String × PyVal))) (name : String),
      get_conf Option.none outC "input" name = Except.error PyErr.typeErr)
    ∧ (∀ outC : Option (List (String × PyVal)),
      run_mode_check (PyVal.boolean true) Option.none outC = Except.error PyErr.typeErr)
    ∧ (∀ (remotely : PyVal) (inputC outC : Option (List (String × PyVal))),
      remotely ≠ PyVal.boolean true →
      run_mode_check remotely inputC outC = Except.ok false) := by
  refine ⟨fun _ _ _ _ _ => rfl, fun _ _ => rfl, fun _ => rfl, ?_⟩
  intro remotely inputC outC h
  simp [run_mode_check, h]

theorem non_http_config_lookups_fail_witness :
    run_mode_check PyVal.pyNone Option.none Option.none = Except.ok false
    ∧ get_conf Option.none Option.none "input" "hostname" = Except.error PyErr.typeErr :=
  ⟨non_http_config_lookups_fail.2.2.2 PyVal.pyNone Option.none Option.none (by decide),
   non_http_config_lookups_fail.2.1 Option.none "hostname"⟩

/-- C9 counterexample: with a non-HTTP input endpoint (configuration `None`)
and the remote-execution flag not `True`, the execution-mode check of line 381
evaluates successfully to `False` — it is not the case that the check cannot
be evaluated for such an endpoint. -/
theorem run_mode_check_evaluates_when_not_remote :
    initialize_path Handler.nonHttp "notebooks/" Option.none false Option.none []
      = Except.ok Option.none
    ∧ run_mode_check (PyVal.boolean false) Option.none (some []) = Except.ok false :=
  ⟨rfl, rfl⟩

/-- C5 (amended): both output storage locations are pure functions of the
destination endpoint fields, the input user, the current date, the triggering
input value and the notebook's path with its first character removed (which
equals the path with its leading separator stripped exactly when the path
begins with the separator); on an `HttpHandler` destination — in particular
any multi-user hub — the written location is the API URL embedding the auth
token as a `?token=` query parameter, while the direct browsable URL is
independent of the token. -/
theorem output_paths_deterministic_and_token_placement :
    (∀ (outC : OutputEndpoint) (u d v p q : String) (b : Bool),
      drop_first p = drop_first q →
      build_output_paths outC u d v p b = build_output_paths outC u d v q b)
    ∧ (∀ (outC : OutputEndpoint) (u d v p : String),
      (build_output_paths outC u d v p true).1
        = outC.contents_uri ++ outC.folder ++ d ++ "-" ++ v ++ "-" ++ drop_first p
            ++ "?token=" ++ outC.token)
    ∧ (∀ (outC : OutputEndpoint) (t₁ t₂ u d v p : String),
      (build_output_paths { outC with token := t₁ } u d v p true).2
        = (build_output_paths { outC with token := t₂ } u d v p true).2) := by
  refine ⟨?_, fun _ _ _ _ _ => rfl, fun _ _ _ _ _ _ _ => rfl⟩
  intro outC u d v p q b hpq
  cases b <;> simp [build_output_paths, hpq]

theorem output_paths_deterministic_witness :
    build_output_paths { contents_uri := "c", hostname := "h", token := "tk", folder := "f" }
        "u" "d" "v" "/a.ipynb" true
      = build_output_paths { contents_uri := "c", hostname := "h", token := "tk", folder := "f" }
        "u" "d" "v" "Xa.ipynb" true :=
  output_paths_deterministic_and_token_placement.1
    { contents_uri := "c", hostname := "h", token := "tk", folder := "f" }
    "u" "d" "v" "/a.ipynb" "Xa.ipynb" true (by decide)

/-- C5 counterexample: the output locations are not functions of the
notebook path with its leading separator stripped: the paths "ab" and "/ab"
have the same stripped form yet produce different locations on both handler
branches, because the source slices `path[1:]` unconditionally. -/
theorem output_path_not_function_of_stripped_path :
    spec_strip_leading_sep "ab" = spec_strip_leading_sep "/ab"
    ∧ build_output_paths { contents_uri := "c", hostname := "h", token := "tk", folder := "f" }
        "u" "d" "v" "ab" true
      ≠ build_output_paths { contents_uri := "c", hostname := "h", token := "tk", folder := "f" }
        "u" "d" "v" "/ab" true
    ∧ build_output_paths { contents_uri := "c", hostname := "h", token := "tk", folder := "f" }
        "u" "d" "v" "ab" false
      ≠ build_output_paths { contents_uri := "c", hostname := "h", token := "tk", folder := "f" }
        "u" "d" "v" "/ab" false := by
  decide

theorem replaceFuel_absent_pattern (pat rep : List Char) :
    ∀ (fuel : Nat) (s : List Char), ¬ pat <:+: s →
    replaceFuel pat rep fuel s = s := by
  intro fuel
  induction fuel with
  | zero => intro s _; rfl
  | succ fuel ih =>
    intro s hni
    cases s with
    | nil => rfl
    | cons c t =>
      have hnp : ¬ (pat ≠ [] ∧ pat.isPrefixOf (c :: t)) := by
        rintro ⟨-, hpre⟩
        exact hni (List.isPrefixOf_iff_prefix.mp hpre).isInfix
      simp only [replaceFuel, hnp, if_false]
      rw [ih t (fun hinf => hni (hinf.trans (List.suffix_cons c t).isInfix))]


/-- C10 (amended): the sanitization step removes only occurrences of
`?token=` followed by the output configuration's token: any recorded path in
which that pattern does not occur — in particular an input path whose input
token the output token neither equals nor prefixes — is left unchanged, so a
differing input token then remains present in the reported input path. -/
theorem sanitize_only_output_token (tOut tIn s : String)
    (h : ¬ (("?token=" ++ tOut).data <:+: s.data)) :
    sanitize_papermill_path tOut s = s
    ∧ (("?token=" ++ tIn).data <:+: s.data →
       ("?token=" ++ tIn).data <:+: (sanitize_papermill_path tOut s).data) := by
  have h1 : sanitize_papermill_path tOut s = s := by
    unfold sanitize_papermill_path pyReplace
    rw [replaceFuel_absent_pattern _ _ _ _ h]
  refine ⟨h1, ?_⟩
  intro hin
  rw [h1]
  exact hin

theorem sanitize_only_output_token_witness :
    sanitize_papermill_path "a" "u?token=b" = "u?token=b"
    ∧ ("?token=" ++ "b").data <:+: (sanitize_papermill_path "a" "u?token=b").data :=
  ⟨(sanitize_only_output_token "a" "b" "u?token=b" (by decide)).1,
   (sanitize_only_output_token "a" "b" "u?token=b" (by decide)).2 (by decide)⟩

/-- C10 counterexample: with input token "ab" different from output token
"a", sanitizing the recorded input path removes the prefix-matching
`?token=a`, leaving "c/pb" — the input token does not remain present even
though the two tokens differ. -/
theorem sanitize_can_destroy_input_token :
    ("ab" : String) ≠ "a"
    ∧ sanitize_papermill_path "a" (build_input_notebook_http "c" "ab" "p") = "c/pb"
    ∧ ¬ (("?token=" ++ "ab").data
          <:+: (sanitize_papermill_path "a" (build_input_notebook_http "c" "ab" "p")).data) := by
  decide

end Jupyter
